import Mathlib

/-!
Verification of the Eva Qi portfolio site scripts.

Shallow embedding of the pure logic of the JavaScript in this repository:
`src/js/device-detector.js`, `src/js/main.js` (desktop renderer),
`src/js/mobile-main.js` (mobile renderer), the unnamed optimized
renderer variant, and `src/js/journey-timeline.js`.

Machine floats on the interesting code paths hold small decimal
constants and exact sums/products of them, so the numeric state is
modelled with `ℚ`; `Math.PI` is embedded as the exact rational value
of the IEEE-754 double.
-/

/-! ## Device detection (`src/js/device-detector.js`) -/

/-- Case-normalisation used to model a case-insensitive (`/.../i`) regex
test: every character is lowercased. -/
def lowerChars (s : String) : List Char :=
  s.data.map Char.toLower

/-- `startsWithChars pat hay` is true when `pat` is an initial segment of
`hay` (character lists). -/
def startsWithChars : List Char → List Char → Bool
  | [], _ => true
  | _ :: _, [] => false
  | a :: as, b :: bs => a == b && startsWithChars as bs

/-- `hasSub pat hay` is true when `pat` occurs contiguously inside `hay`.
Together with `lowerChars` this models `/pat/i.test(hay)` for an
alternation-free pattern. -/
def hasSub (pat : List Char) : List Char → Bool
  | [] => pat.isEmpty
  | c :: rest => startsWithChars pat (c :: rest) || hasSub pat rest

/-- `/Android|webOS|iPhone|iPad|iPod|BlackBerry|IEMobile|Opera Mini/i.test(ua)`
from `DeviceDetector.detectMobile` (device-detector.js line 27). -/
def mobileUATest (ua : String) : Bool :=
  hasSub "android".data (lowerChars ua) ||
  hasSub "webos".data (lowerChars ua) ||
  hasSub "iphone".data (lowerChars ua) ||
  hasSub "ipad".data (lowerChars ua) ||
  hasSub "ipod".data (lowerChars ua) ||
  hasSub "blackberry".data (lowerChars ua) ||
  hasSub "iemobile".data (lowerChars ua) ||
  hasSub "opera mini".data (lowerChars ua)

/-- `/iPad|Android/i.test(ua)` from `DeviceDetector.detectTablet`
(device-detector.js line 36). -/
def tabletUATest (ua : String) : Bool :=
  hasSub "ipad".data (lowerChars ua) ||
  hasSub "android".data (lowerChars ua)

/-- `DeviceDetector.detectMobile` (device-detector.js lines 26-30):
regex test on the user agent, or more than two touch points, or a
window width of at most 768.  (In the source the middle clause is
`navigator.maxTouchPoints && navigator.maxTouchPoints > 2`; as the
truth value of an `||` chain this is equivalent to
`navigator.maxTouchPoints > 2`, since `maxTouchPoints > 2` forces
`maxTouchPoints` to be nonzero.) -/
def detectMobile (ua : String) (maxTouchPoints innerWidth : Nat) : Bool :=
  mobileUATest ua || decide (2 < maxTouchPoints) || decide (innerWidth ≤ 768)

/-- `DeviceDetector.detectTablet` (device-detector.js lines 35-39). -/
def detectTablet (ua : String) (innerWidth : Nat) : Bool :=
  tabletUATest ua && decide (768 < innerWidth) && decide (innerWidth ≤ 1024)

/-- `DeviceDetector.getDeviceType` (device-detector.js lines 44-48),
with `this.isMobile` / `this.isTablet` inlined from the constructor. -/
def getDeviceType (ua : String) (maxTouchPoints innerWidth : Nat) : String :=
  if detectMobile ua maxTouchPoints innerWidth then "mobile"
  else if detectTablet ua innerWidth then "tablet"
  else "desktop"

/-- The `script.src` chosen by `DeviceDetector.loadAppropriateScript`
(device-detector.js lines 158-164) for a detected device type. -/
def loadAppropriateScript (deviceType : String) : String :=
  if deviceType == "mobile" then "src/js/mobile-main.js" else "src/js/main.js"

/-- The full list of application scripts requested by
`DeviceDetector.loadAppropriateScript`, in request order: the
device-selected script, and — when `onerror` fires for that script
(`primaryFails = true`) — the hard-coded desktop fallback appended by
the handler at device-detector.js lines 171-179. -/
def requestedScripts (deviceType : String) (primaryFails : Bool) : List String :=
  let primary := loadAppropriateScript deviceType
  if primaryFails then [primary, "src/js/main.js"] else [primary]

/-! ## Role cycling (`startRoleTyping` in all three renderer variants) -/

/-- One entry of the `this.roles` array shared by the three renderer
variants. -/
structure Role where
  text : String
  cls : String
deriving DecidableEq

/-- `this.roles` (main.js lines 53-60, mobile-main.js lines 77-84, and
the optimized variant lines 70-77 — identical in all three). -/
def roles : List Role :=
  [⟨"Developer", "role-developer"⟩,
   ⟨"Quant Researcher", "role-researcher"⟩,
   ⟨"Artist", "role-artist"⟩,
   ⟨"Educator", "role-educator"⟩,
   ⟨"Entrepreneur", "role-entrepreneur"⟩,
   ⟨"Wine Connoisseur", "role-connoisseur"⟩]

/-- `this.currentRoleIndex = (this.currentRoleIndex + 1) % this.roles.length`,
run once per completed typing cycle in every variant. -/
def nextRoleIndex (i : Nat) : Nat :=
  (i + 1) % roles.length

/-- The successive values written to `roleTextElement.textContent` during
one typing cycle: the loop bodies set `targetText.substring(0, i)` for
`i = 0, 1, ..., targetText.length` (main.js lines 402-405; the mobile
and optimized variants run the same writes via their `typeChar`
recursion). -/
def typingWrites (targetText : String) : List String :=
  (List.range (targetText.length + 1)).map (fun i => targetText.take i)

/-! ## Scale / zoom handlers -/

/-- `Math.max(lo, Math.min(hi, x))` — the clamp idiom used by every
zoom handler. -/
def clampScale (lo hi x : ℚ) : ℚ :=
  max lo (min hi x)

/-- Desktop scale bounds: `this.minScale = 0.8` (main.js line 41). -/
def deskMinScale : ℚ := 8/10

/-- Desktop scale bounds: `this.maxScale = 2.5` (main.js line 42). -/
def deskMaxScale : ℚ := 5/2

/-- Desktop `this.zoomThreshold = 1.6` (main.js line 43). -/
def deskZoomThreshold : ℚ := 8/5

/-- Mobile scale bounds: `this.minScale = 0.8` (mobile-main.js line 43). -/
def mobMinScale : ℚ := 8/10

/-- Mobile scale bounds: `this.maxScale = 2.0` (mobile-main.js line 44). -/
def mobMaxScale : ℚ := 2

/-- Mobile `this.zoomThreshold = 1.4` (mobile-main.js line 45). -/
def mobZoomThreshold : ℚ := 7/5

/-- `DynamicPortfolio3DRenderer.onWheel` (main.js lines 453-463): the new
`targetScale` after one wheel event with vertical delta `deltaY`. -/
def desk_onWheel (targetScale deltaY : ℚ) : ℚ :=
  clampScale deskMinScale deskMaxScale (targetScale + -deltaY * (2/1000))

/-- The pinch-to-zoom `touchmove` update in
`MobilePortfolio3DRenderer.setupEventListeners` (mobile-main.js lines
607-625): `targetScale` is multiplied by the quotient of the current by the
initial pinch distance and clamped. -/
def mob_pinchUpdate (targetScale scale : ℚ) : ℚ :=
  clampScale mobMinScale mobMaxScale (targetScale * scale)

/-- `MobilePortfolio3DRenderer.handleAutoZoom` (mobile-main.js lines
436-455): `this.targetScale = this.zoomThreshold + 0.1`. -/
def mob_autoZoomTarget : ℚ :=
  mobZoomThreshold + 1/10

/-! ## Per-frame damping (`animate` in the desktop and optimized variants) -/

/-- One step of the interaction-damping update used for both rotation and
scale: `current += (target - current) * damping` (main.js lines 603,
608-609; optimized variant lines 788, 797-798). -/
def dampStep (current target damping : ℚ) : ℚ :=
  current + (target - current) * damping

/-- `dampStep` iterated over `n` frames with the target and damping held
fixed. -/
def dampIter (current target damping : ℚ) : Nat → ℚ
  | 0 => current
  | n + 1 => dampStep (dampIter current target damping n) target damping

/-! ## Lens-effect composite fragment shader

The fragment shader in `createCompositeShader` is textually identical in
`main.js` (lines 229-275), `mobile-main.js` (lines 233-274) and the
optimized variant (lines 267-308); only the `uLensRadius` uniform
differs (0.13 desktop / optimized, 0.15 mobile).  It is embedded as a
pure function of the sampled texture colors and the aspect-corrected
cursor distance of the fragment. -/

/-- A GLSL `vec3` of channel values. -/
structure Vec3 where
  x : ℚ
  y : ℚ
  z : ℚ
deriving DecidableEq

/-- A GLSL `vec4` color (rgba). -/
structure RGBA where
  r : ℚ
  g : ℚ
  b : ℚ
  a : ℚ
deriving DecidableEq

/-- Componentwise scalar multiple of a `vec3`. -/
def scaleV3 (t : ℚ) (v : Vec3) : Vec3 :=
  ⟨t * v.x, t * v.y, t * v.z⟩

/-- GLSL `dot` on `vec3`. -/
def dotV3 (u v : Vec3) : ℚ :=
  u.x * v.x + u.y * v.y + u.z * v.z

/-- GLSL `mix(a, b, t) = a * (1 - t) + b * t`, componentwise. -/
def mixV3 (u v : Vec3) (t : ℚ) : Vec3 :=
  ⟨u.x * (1 - t) + v.x * t, u.y * (1 - t) + v.y * t, u.z * (1 - t) + v.z * t⟩

/-- GLSL `step(edge, x)`: 0 when `x < edge`, else 1. -/
def stepQ (edge x : ℚ) : ℚ :=
  if x < edge then 0 else 1

/-- GLSL `clamp(x, 0, 1)`. -/
def clamp01 (x : ℚ) : ℚ :=
  max 0 (min 1 x)

/-- GLSL `smoothstep(e0, e1, x)` as actually computed:
`t = clamp((x - e0) / (e1 - e0), 0, 1); t * t * (3 - 2 * t)`. -/
def smoothstepQ (e0 e1 x : ℚ) : ℚ :=
  let t := clamp01 ((x - e0) / (e1 - e0))
  t * t * (3 - 2 * t)

/-- `vec3 edgePink = vec3(0.94, 0.48, 0.78);` -/
def edgePink : Vec3 := ⟨94/100, 48/100, 78/100⟩

/-- `vec3 centerPink = vec3(0.97, 0.85, 0.93);` -/
def centerPink : Vec3 := ⟨97/100, 85/100, 93/100⟩

/-- The luminance weights `vec3(0.299, 0.587, 0.114)` of the wireframe
brightness test. -/
def lumWeights : Vec3 := ⟨299/1000, 587/1000, 114/1000⟩

/-- `vec3 pinkGlow = vec3(0.9, 0.5, 0.8) * 0.35;` -/
def pinkGlowColor : Vec3 := scaleV3 (35/100) ⟨9/10, 5/10, 8/10⟩

/-- The rgb part of a sampled color. -/
def rgbOf (c : RGBA) : Vec3 := ⟨c.r, c.g, c.b⟩

/-- `wireframeBrightness = dot(wireframeColor.rgb, vec3(0.299, 0.587, 0.114))`. -/
def wireframeBrightness (wireframeColor : RGBA) : ℚ :=
  dotV3 (rgbOf wireframeColor) lumWeights

/-- The pink gradient inside the lens:
`mix(centerPink, edgePink, normalizedDist * 0.65)` with
`normalizedDist = distance / uLensRadius`. -/
def pinkGradient (uLensRadius dist : ℚ) : Vec3 :=
  mixV3 centerPink edgePink (dist / uLensRadius * (65/100))

/-- The edge-glow increment added to `gl_FragColor.rgb` after the branch:
`pinkGlow * edgeGlow * (1.0 - step(distance, uLensRadius))` with
`edgeGlow = smoothstep(uLensRadius + 0.015, uLensRadius - 0.004, distance)`. -/
def edgeGlowTerm (uLensRadius dist : ℚ) : Vec3 :=
  scaleV3 (smoothstepQ (uLensRadius + 15/1000) (uLensRadius - 4/1000) dist *
           (1 - stepQ dist uLensRadius)) pinkGlowColor

/-- The `main` of the composite fragment shader, as a function of the two
sampled texture colors, the lens radius uniform and the aspect-corrected
cursor distance `dist = length((vUv - mouseUV) * vec2(aspect, 1.0))` of
the fragment. -/
def lensFragment (mainColor wireframeColor : RGBA) (uLensRadius dist : ℚ) : RGBA :=
  let base : RGBA :=
    if dist < uLensRadius then
      if 3/10 < wireframeBrightness wireframeColor then ⟨1, 1, 1, 1⟩
      else
        let p := pinkGradient uLensRadius dist
        ⟨p.x, p.y, p.z, 1⟩
    else mainColor
  let glow := edgeGlowTerm uLensRadius dist
  ⟨base.r + glow.x, base.g + glow.y, base.b + glow.z, base.a⟩

/-! ## Desktop vs. optimized variant: interaction constants and updates -/

/-- `this.rotationDamping = 0.12` (main.js line 32). -/
def desk_rotationDamping : ℚ := 12/100

/-- `this.rotationDamping = 0.12` (optimized variant line 34). -/
def opt_rotationDamping : ℚ := 12/100

/-- `this.scaleDamping = 0.15` (main.js line 40). -/
def desk_scaleDamping : ℚ := 15/100

/-- `this.scaleDamping = 0.15` (optimized variant line 42). -/
def opt_scaleDamping : ℚ := 15/100

/-- `Math.PI`: the IEEE-754 double closest to π, as an exact rational
(884279719003555 / 2^48). -/
def jsPI : ℚ := 884279719003555/281474976710656

/-- `this.maxRotationX = Math.PI / 3` (main.js line 33). -/
def desk_maxRotationX : ℚ := jsPI / 3

/-- `this.maxRotationX = Math.PI / 3` (optimized variant line 35). -/
def opt_maxRotationX : ℚ := jsPI / 3

/-- `this.maxRotationY = Math.PI / 2.5` (main.js line 34). -/
def desk_maxRotationY : ℚ := jsPI / (5/2)

/-- `this.maxRotationY = Math.PI / 2.5` (optimized variant line 36). -/
def opt_maxRotationY : ℚ := jsPI / (5/2)

/-- Optimized-variant scale bounds `0.8` / `2.5` and threshold `1.6`
(optimized variant lines 43-45). -/
def opt_minScale : ℚ := 8/10

/-- `this.maxScale = 2.5` (optimized variant line 44). -/
def opt_maxScale : ℚ := 5/2

/-- `this.zoomThreshold = 1.6` (optimized variant line 45). -/
def opt_zoomThreshold : ℚ := 8/5

/-- `OptimizedPortfolio3DRenderer.onWheel` (optimized variant lines
665-670). -/
def opt_onWheel (targetScale deltaY : ℚ) : ℚ :=
  clampScale opt_minScale opt_maxScale (targetScale + -deltaY * (2/1000))

/-- The target-rotation mapping of `DynamicPortfolio3DRenderer.onMouseMove`
(main.js lines 512-513), as `(targetRotation.x, targetRotation.y)` from
the normalised mouse coordinates. -/
def desk_mouseTarget (mouseX mouseY : ℚ) : ℚ × ℚ :=
  (mouseY * desk_maxRotationX * (6/10), mouseX * desk_maxRotationY)

/-- The target-rotation mapping of `OptimizedPortfolio3DRenderer.onMouseMove`
(optimized variant lines 683-684). -/
def opt_mouseTarget (mouseX mouseY : ℚ) : ℚ × ℚ :=
  (mouseY * opt_maxRotationX * (6/10), mouseX * opt_maxRotationY)

/-- The rotation-damping frame update of `DynamicPortfolio3DRenderer.animate`
(main.js lines 608-609), on one rotation axis. -/
def desk_rotFrameStep (current target : ℚ) : ℚ :=
  current + (target - current) * desk_rotationDamping

/-- The rotation-damping frame update of
`OptimizedPortfolio3DRenderer.animate` (optimized variant lines 797-798). -/
def opt_rotFrameStep (current target : ℚ) : ℚ :=
  current + (target - current) * opt_rotationDamping

/-- The scale frame update `this.currentScale += (this.targetScale -
this.currentScale) * this.scaleDamping` of main.js line 603. -/
def desk_scaleFrameStep (current target : ℚ) : ℚ :=
  current + (target - current) * desk_scaleDamping

/-- The scale frame update of the optimized variant, line 788. -/
def opt_scaleFrameStep (current target : ℚ) : ℚ :=
  current + (target - current) * opt_scaleDamping

/-! ## Overlay visibility (`updateOverlay` in all three variants) -/

/-- The mutable fields of the renderer touched by `updateOverlay`. -/
structure OverlayState where
  overlayVisible : Bool
  isTyping : Bool
  hasSeenIntro : Bool
deriving DecidableEq

/-- `updateOverlay` (main.js lines 519-550, mobile-main.js lines 782-800,
optimized variant lines 690-716 — identical branch logic, parametrised
here by the `zoomThreshold` of the variant).  The returned `Bool` records
whether this call scheduled `startRoleTyping` (the `setTimeout(...,
800)` in the showing branch). -/
def updateOverlay (zoomThreshold currentScale : ℚ) (s : OverlayState) :
    OverlayState × Bool :=
  let shouldShowOverlay := decide (zoomThreshold ≤ currentScale)
  if shouldShowOverlay && !s.overlayVisible then
    ({ overlayVisible := true, isTyping := s.isTyping, hasSeenIntro := true }, true)
  else if !shouldShowOverlay && s.overlayVisible then
    ({ overlayVisible := false, isTyping := false, hasSeenIntro := s.hasSeenIntro }, false)
  else (s, false)

/-! ## Journey timeline (`src/js/journey-timeline.js`) -/

/-- `card.style.top` as set in `createTimelineCard`
(journey-timeline.js line 197): `p * 100` vh for normalized position `p`. -/
def cardTopVh (position : ℚ) : ℚ :=
  position * 100

/-- `cardProgress = parseFloat(card.style.top) / 100`
(journey-timeline.js lines 293-294). -/
def cardProgress (position : ℚ) : ℚ :=
  cardTopVh position / 100

/-- `this.scrollProgress = scrollY / (documentHeight - windowHeight)`
(journey-timeline.js line 252). -/
def scrollProgressOf (scrollY documentHeight windowHeight : ℚ) : ℚ :=
  scrollY / (documentHeight - windowHeight)

/-- The classes of one card after `updateCardsVisibility`
(journey-timeline.js lines 296-303): the pair is
(`card` has class `visible`, its dot has class `active`). -/
def updateCardClasses (scrollProgress position : ℚ) : Bool × Bool :=
  if cardProgress position - 1/10 ≤ scrollProgress then (true, true)
  else (false, false)

/-! ## Helper lemmas -/

/-- A `Math.max(lo, Math.min(hi, x))` clamp lands in `[lo, hi]` whenever
`lo ≤ hi`. -/
theorem clampScale_mem (lo hi x : ℚ) (h : lo ≤ hi) :
    lo ≤ clampScale lo hi x ∧ clampScale lo hi x ≤ hi :=
  ⟨le_max_left _ _, max_le h (min_le_left _ _)⟩

/-! ## Claim theorems -/

/-- C1.  Device-adaptive script selection: `loadAppropriateScript`
requests exactly one script, `src/js/mobile-main.js` if and only if the
detected device type is `mobile`, and `src/js/main.js` for every other
device type (including `tablet` and `desktop`). -/
theorem loadAppropriateScript_device_adaptive (deviceType : String) :
    (loadAppropriateScript deviceType = "src/js/mobile-main.js" ↔ deviceType = "mobile") ∧
    (deviceType ≠ "mobile" → loadAppropriateScript deviceType = "src/js/main.js") := by
  constructor
  · constructor
    · intro h
      by_contra hne
      simp only [loadAppropriateScript, beq_iff_eq, if_neg hne] at h
      exact absurd h (by decide)
    · intro h
      simp [loadAppropriateScript, h]
  · intro h
    simp [loadAppropriateScript, h]

/-- Witness for C1 at the concrete device types `"mobile"` and
`"tablet"`. -/
theorem loadAppropriateScript_device_adaptive_witness :
    loadAppropriateScript "mobile" = "src/js/mobile-main.js" ∧
    loadAppropriateScript "tablet" = "src/js/main.js" :=
  ⟨(loadAppropriateScript_device_adaptive "mobile").1.mpr rfl,
   (loadAppropriateScript_device_adaptive "tablet").2 (by decide)⟩

/-- C2.  Role cycling: the roles appear in the fixed order Developer,
Quant Researcher, Artist, Educator, Entrepreneur, Wine Connoisseur;
`currentRoleIndex` always stays in `0..5` (every completed cycle maps it
into `0..5`), each completed typing cycle advances it by exactly 1
modulo 6, and within one cycle the k-th write of the typing loop
displays exactly the first k characters of the text of the current role. -/
theorem roleCycling_order_and_typing :
    roles.map Role.text =
      ["Developer", "Quant Researcher", "Artist", "Educator",
       "Entrepreneur", "Wine Connoisseur"] ∧
    (∀ i : Nat, nextRoleIndex i < 6) ∧
    (∀ i : Nat, nextRoleIndex i = (i + 1) % 6) ∧
    (∀ s : String, ∀ k : Nat, k ≤ s.length →
      (typingWrites s).get? k = some (s.take k)) := by
  refine ⟨by decide, fun i => Nat.mod_lt _ (by decide), fun i => rfl, ?_⟩
  intro s k hk
  have hk6 : k < s.length + 1 := Nat.lt_succ_of_le hk
  simp [typingWrites, List.getElem?_range, hk6]

/-- Witness for C2 at role `"Developer"` after 3 writes. -/
theorem roleCycling_order_and_typing_witness :
    (typingWrites "Developer").get? 3 = some "Dev" := by
  have h := roleCycling_order_and_typing.2.2.2 "Developer" 3 (by decide)
  rw [h]
  decide

/-- C3.  Zoom clamp invariant: starting from a `targetScale` within
`[minScale, maxScale]` (`[0.8, 2.5]` desktop, `[0.8, 2.0]` mobile), the
mouse-wheel handler, the pinch-to-zoom handler and the mobile auto-zoom
button all leave `targetScale` within `[minScale, maxScale]`. -/
theorem targetScale_clamped (tsD tsM deltaY scale : ℚ)
    (_hD : deskMinScale ≤ tsD ∧ tsD ≤ deskMaxScale)
    (_hM : mobMinScale ≤ tsM ∧ tsM ≤ mobMaxScale) :
    (deskMinScale ≤ desk_onWheel tsD deltaY ∧ desk_onWheel tsD deltaY ≤ deskMaxScale) ∧
    (mobMinScale ≤ mob_pinchUpdate tsM scale ∧ mob_pinchUpdate tsM scale ≤ mobMaxScale) ∧
    (mobMinScale ≤ mob_autoZoomTarget ∧ mob_autoZoomTarget ≤ mobMaxScale) := by
  refine ⟨clampScale_mem _ _ _ ?_, clampScale_mem _ _ _ ?_, ?_⟩
  · norm_num [deskMinScale, deskMaxScale]
  · norm_num [mobMinScale, mobMaxScale]
  · norm_num [mobMinScale, mobMaxScale, mob_autoZoomTarget, mobZoomThreshold]

/-- Witness for C3 at `targetScale = 1`, `deltaY = -100`, pinch factor 3. -/
theorem targetScale_clamped_witness :
    deskMinScale ≤ desk_onWheel 1 (-100) ∧ desk_onWheel 1 (-100) ≤ deskMaxScale :=
  (targetScale_clamped 1 1 (-100) 3
    (by norm_num [deskMinScale, deskMaxScale])
    (by norm_num [mobMinScale, mobMaxScale])).1

/-- C4.  Interaction-damping contraction: with the target and a damping
factor `0 < d < 1` fixed, one frame update keeps `current` between its
previous value and the target, shrinks the distance to the target by the
exact factor `1 - d`, and hence over `n` frames the distance is
`(1 - d) ^ n` times the initial one (monotone convergence). -/
theorem dampStep_contraction (c t d : ℚ) (h0 : 0 < d) (h1 : d < 1) :
    (min c t ≤ dampStep c t d ∧ dampStep c t d ≤ max c t) ∧
    |t - dampStep c t d| = (1 - d) * |t - c| ∧
    (∀ n : Nat, |t - dampIter c t d n| = (1 - d) ^ n * |t - c|) := by
  have hstep : ∀ x : ℚ, |t - dampStep x t d| = (1 - d) * |t - x| := by
    intro x
    have : t - dampStep x t d = (1 - d) * (t - x) := by
      unfold dampStep; ring
    rw [this, abs_mul, abs_of_pos (by linarith : (0:ℚ) < 1 - d)]
  refine ⟨?_, hstep c, ?_⟩
  · rcases le_total c t with h | h
    · have hc : min c t = c := min_eq_left h
      have ht : max c t = t := max_eq_right h
      unfold dampStep
      constructor
      · rw [hc]; nlinarith
      · rw [ht]; nlinarith
    · have hc : min c t = t := min_eq_right h
      have ht : max c t = c := max_eq_left h
      unfold dampStep
      constructor
      · rw [hc]; nlinarith
      · rw [ht]; nlinarith
  · intro n
    induction n with
    | zero => simp [dampIter]
    | succ n ih =>
        calc |t - dampIter c t d (n + 1)|
            = (1 - d) * |t - dampIter c t d n| := hstep _
          _ = (1 - d) * ((1 - d) ^ n * |t - c|) := by rw [ih]
          _ = (1 - d) ^ (n + 1) * |t - c| := by ring

/-- Witness for C4 at `current = 0`, `target = 1`, `damping = 1/2`. -/
theorem dampStep_contraction_witness :
    |1 - dampStep 0 1 (1/2)| = (1 - 1/2) * |1 - (0:ℚ)| :=
  (dampStep_contraction 0 1 (1/2) (by norm_num) (by norm_num)).2.1

/-- C5.  Lens-effect shader output: inside the lens
(`distance < uLensRadius`) the fragment is pure white exactly when the
wireframe luminance exceeds 0.3 and otherwise the pink gradient
`mix(centerPink, edgePink, normalizedDist * 0.65)`; outside
(`distance >= uLensRadius`) it is the main-scene color plus the
edge-glow term. -/
theorem lensFragment_spec (mainColor wireframeColor : RGBA) (uLensRadius dist : ℚ) :
    (dist < uLensRadius → 3/10 < wireframeBrightness wireframeColor →
      lensFragment mainColor wireframeColor uLensRadius dist = ⟨1, 1, 1, 1⟩) ∧
    (dist < uLensRadius → wireframeBrightness wireframeColor ≤ 3/10 →
      lensFragment mainColor wireframeColor uLensRadius dist =
        ⟨(pinkGradient uLensRadius dist).x, (pinkGradient uLensRadius dist).y,
         (pinkGradient uLensRadius dist).z, 1⟩) ∧
    (uLensRadius ≤ dist →
      lensFragment mainColor wireframeColor uLensRadius dist =
        ⟨mainColor.r + (edgeGlowTerm uLensRadius dist).x,
         mainColor.g + (edgeGlowTerm uLensRadius dist).y,
         mainColor.b + (edgeGlowTerm uLensRadius dist).z, mainColor.a⟩) := by
  have hglow : dist < uLensRadius → edgeGlowTerm uLensRadius dist = ⟨0, 0, 0⟩ := by
    intro h
    have hns : ¬ uLensRadius < dist := not_lt.mpr (le_of_lt h)
    simp [edgeGlowTerm, stepQ, hns, scaleV3]
  refine ⟨?_, ?_, ?_⟩
  · intro h hb
    simp [lensFragment, h, hb, not_le.mpr hb, hglow h]
  · intro h hb
    simp [lensFragment, h, not_lt.mpr hb, hglow h]
  · intro h
    simp [lensFragment, not_lt.mpr h]

/-- Witness for C5: a fragment at the cursor center over a bright
wireframe texel is rendered pure white. -/
theorem lensFragment_spec_witness :
    lensFragment ⟨0, 0, 0, 1⟩ ⟨1, 1, 1, 1⟩ (13/100) 0 = ⟨1, 1, 1, 1⟩ :=
  (lensFragment_spec ⟨0, 0, 0, 1⟩ ⟨1, 1, 1, 1⟩ (13/100) 0).1
    (by norm_num)
    (by norm_num [wireframeBrightness, dotV3, rgbOf, lumWeights])

/-- C6.  Desktop / optimized-desktop equivalence: the two variants share
the damping factors, rotation limits, scale clamp, zoom threshold, and
identical wheel, mouse-to-rotation and per-frame damping updates. -/
theorem desktop_optimized_equiv :
    desk_rotationDamping = opt_rotationDamping ∧
    desk_scaleDamping = opt_scaleDamping ∧
    desk_maxRotationX = opt_maxRotationX ∧
    desk_maxRotationY = opt_maxRotationY ∧
    deskMinScale = opt_minScale ∧
    deskMaxScale = opt_maxScale ∧
    deskZoomThreshold = opt_zoomThreshold ∧
    (∀ targetScale deltaY : ℚ, desk_onWheel targetScale deltaY = opt_onWheel targetScale deltaY) ∧
    (∀ mouseX mouseY : ℚ, desk_mouseTarget mouseX mouseY = opt_mouseTarget mouseX mouseY) ∧
    (∀ current target : ℚ, desk_rotFrameStep current target = opt_rotFrameStep current target) ∧
    (∀ current target : ℚ, desk_scaleFrameStep current target = opt_scaleFrameStep current target) :=
  ⟨rfl, rfl, rfl, rfl, rfl, rfl, rfl, fun _ _ => rfl, fun _ _ => rfl,
   fun _ _ => rfl, fun _ _ => rfl⟩

/-- C7.  Scroll-based timeline card visibility: after an
`updateCardsVisibility` run with computed scroll progress `sp`, the card
placed at normalized position `p` (top `p * 100` vh) carries the
`visible` class — and its dot the `active` class — exactly when
`sp ≥ p - 0.1`. -/
theorem updateCardClasses_visibility (sp p : ℚ) :
    ((updateCardClasses sp p).1 = true ↔ p - 1/10 ≤ sp) ∧
    (updateCardClasses sp p).2 = (updateCardClasses sp p).1 := by
  have hcp : cardProgress p = p := by
    unfold cardProgress cardTopVh
    field_simp
  unfold updateCardClasses
  rw [hcp]
  split_ifs with h
  · simpa using h
  · simpa using h

/-- C8.  Script-load fallback: for every device type and load outcome at
least one application script is requested, and when the device-selected
script fails to load the appended fallback is always the desktop script
`src/js/main.js`. -/
theorem requestedScripts_fallback (deviceType : String) (primaryFails : Bool) :
    requestedScripts deviceType primaryFails ≠ [] ∧
    (primaryFails = true →
      (requestedScripts deviceType primaryFails).getLast? = some "src/js/main.js") := by
  cases primaryFails <;> simp [requestedScripts]

/-- Witness for C8: a failed mobile-script load falls back to the
desktop script. -/
theorem requestedScripts_fallback_witness :
    (requestedScripts "mobile" true).getLast? = some "src/js/main.js" :=
  (requestedScripts_fallback "mobile" true).2 rfl

/-- C9.  `DeviceDetector.getDeviceType` never returns `tablet`: whenever
`detectTablet` is true, `detectMobile` is also true (the tablet regex
`/iPad|Android/i` is subsumed by the mobile regex), so the result is
always `mobile` or `desktop` and the `tablet` branch is unreachable. -/
theorem getDeviceType_never_tablet (ua : String) (maxTouchPoints innerWidth : Nat) :
    (detectTablet ua innerWidth = true → detectMobile ua maxTouchPoints innerWidth = true) ∧
    (getDeviceType ua maxTouchPoints innerWidth = "mobile" ∨
     getDeviceType ua maxTouchPoints innerWidth = "desktop") := by
  have himp : detectTablet ua innerWidth = true →
      detectMobile ua maxTouchPoints innerWidth = true := by
    intro h
    unfold detectTablet tabletUATest at h
    unfold detectMobile mobileUATest
    simp only [Bool.and_eq_true, Bool.or_eq_true] at h ⊢
    tauto
  refine ⟨himp, ?_⟩
  unfold getDeviceType
  by_cases hm : detectMobile ua maxTouchPoints innerWidth = true
  · simp [hm]
  · have ht : detectTablet ua innerWidth = false := by
      cases hdt : detectTablet ua innerWidth
      · rfl
      · exact absurd (himp hdt) hm
    simp [hm, ht]

/-- Witness for C9: an iPad user agent at width 900 is detected as a
tablet and hence also as mobile. -/
theorem getDeviceType_never_tablet_witness :
    detectMobile "iPad Safari" 0 900 = true :=
  (getDeviceType_never_tablet "iPad Safari" 0 900).1 (by decide)

/-- C10.  Overlay visibility tracks the zoom threshold: after each
`updateOverlay` call, `overlayVisible` equals
`currentScale >= zoomThreshold`; a hidden-to-shown transition schedules
the role-typing start, and a shown-to-hidden transition sets `isTyping`
to false. -/
theorem updateOverlay_tracks_threshold (zoomThreshold currentScale : ℚ)
    (s : OverlayState) :
    ((updateOverlay zoomThreshold currentScale s).1.overlayVisible =
      decide (zoomThreshold ≤ currentScale)) ∧
    (s.overlayVisible = false →
      (updateOverlay zoomThreshold currentScale s).1.overlayVisible = true →
      (updateOverlay zoomThreshold currentScale s).2 = true) ∧
    (s.overlayVisible = true →
      (updateOverlay zoomThreshold currentScale s).1.overlayVisible = false →
      (updateOverlay zoomThreshold currentScale s).1.isTyping = false) := by
  by_cases h : zoomThreshold ≤ currentScale <;>
    cases hs : s.overlayVisible <;>
      simp [updateOverlay, h, hs]

/-- Witness for C10: crossing the desktop threshold (scale 2 against
threshold 1.6) from a hidden overlay schedules role typing. -/
theorem updateOverlay_tracks_threshold_witness :
    (updateOverlay deskZoomThreshold 2 ⟨false, false, false⟩).2 = true := by
  refine (updateOverlay_tracks_threshold deskZoomThreshold 2 ⟨false, false, false⟩).2.1 rfl ?_
  rw [(updateOverlay_tracks_threshold deskZoomThreshold 2 ⟨false, false, false⟩).1]
  norm_num [deskZoomThreshold]
